import Mathlib

/-!
Verification development for the API-integration client
(source: src/APIIntegration.py, class APIIntegration).

The two core functions, fetch_weather_data and fetch_crypto_prices, are
embedded shallowly.  A call is modelled as a function of the outcome of the
single outbound HTTP exchange (requests.get): either the request raises an
exception, or it completes with a status code and a body whose JSON parse
(response.json()) either yields a tree or raises.  The Python try/except
structure is made explicit: the try body is an Except-valued computation and
the except clauses form a handler; an exception matched by no clause would
propagate to the caller.  Printing (the print calls on the error paths) is
modelled by the list of printed lines returned alongside the result, in
order.  Python strings are modelled over ASCII; JSON numbers are carried as
rationals (no arithmetic is ever performed on them by the source, they are
only copied).  The local wall-clock rendering done by
datetime.fromtimestamp(..).strftime(..) depends on the machine timezone, so
it is kept abstract as an explicit parameter fmt of the weather fetch; the
embedding records that the timestamp field is fmt applied to the raw dt
number and that nothing else depends on fmt.
-/

/-- JSON value tree, the result of response.json(). Numbers are rationals. -/
inductive Json : Type where
  | null : Json
  | bool (b : Bool) : Json
  | num (q : ℚ) : Json
  | str (s : String) : Json
  | arr (items : List Json) : Json
  | obj (fields : List (String × Json)) : Json

/-- Python exceptions that the try bodies of the source can raise: dict and
list subscription errors, attribute and type errors, a JSON decode error,
the two requests exceptions the source names, and a catch-all for any other
Exception subclass (message text carried). -/
inductive PyExc : Type where
  | keyError (key : String)
  | keyErrorNum (n : Nat)
  | indexError (msg : String)
  | typeError (msg : String)
  | attributeError (msg : String)
  | valueError (msg : String)
  | requestsTimeout
  | requestsConnectionError
  | otherError (msg : String)
deriving DecidableEq

/-- A single ASCII apostrophe, as produced by Python repr of a string key. -/
def pyQuoteCh : String := String.mk [Char.ofNat 39]

/-- Python str(e) for the modelled exceptions: str(KeyError(k)) is the repr
of the key (quoted for a string key, bare for an int key); the other
exceptions render their message. The two requests exceptions are always
caught by their dedicated clauses before str is applied to them. -/
def pyStr : PyExc → String
  | .keyError k => pyQuoteCh ++ k ++ pyQuoteCh
  | .keyErrorNum n => toString n
  | .indexError m => m
  | .typeError m => m
  | .attributeError m => m
  | .valueError m => m
  | .requestsTimeout => "timed out"
  | .requestsConnectionError => "connection error"
  | .otherError m => m

/-- Boolean list-prefix test on characters. -/
def startsWithChars : List Char → List Char → Bool
  | [], _ => true
  | _ :: _, [] => false
  | p :: ps, c :: cs => p == c && startsWithChars ps cs

/-- Boolean substring test on character lists. -/
def subAux (p : List Char) : List Char → Bool
  | [] => startsWithChars p []
  | c :: cs => startsWithChars p (c :: cs) || subAux p cs

/-- Python substring containment, needle in haystack. -/
def strContainsSub (hay needle : String) : Bool :=
  subAux needle.data hay.data

/-- Python subscription j[key] with a string key: dict lookup (KeyError when
the key is absent); a TypeError on every other value, as in Python. -/
def Json.getItem (j : Json) (key : String) : Except PyExc Json :=
  match j with
  | .obj fields =>
    match fields.lookup key with
    | some v => .ok v
    | none => .error (.keyError key)
  | .arr _ => .error (.typeError "list indices must be integers or slices, not str")
  | .str _ => .error (.typeError "string indices must be integers")
  | _ => .error (.typeError "object is not subscriptable")

/-- Python subscription j[i] with an int index: list indexing (IndexError
out of range); on a dict an int key is never a JSON object key, so KeyError;
on a string, the one-character string; a TypeError otherwise. -/
def Json.index (j : Json) (i : Nat) : Except PyExc Json :=
  match j with
  | .arr items =>
    match items.get? i with
    | some v => .ok v
    | none => .error (.indexError "list index out of range")
  | .obj _ => .error (.keyErrorNum i)
  | .str s =>
    match s.data.get? i with
    | some c => .ok (.str (String.mk [c]))
    | none => .error (.indexError "string index out of range")
  | _ => .error (.typeError "object is not subscriptable")

/-- Python dict.get(key, default): the value when present, the default when
absent; an AttributeError on a non-dict receiver. -/
def Json.dictGet (j : Json) (key : String) (dflt : Json) : Except PyExc Json :=
  match j with
  | .obj fields =>
    match fields.lookup key with
    | some v => .ok v
    | none => .ok dflt
  | _ => .error (.attributeError "object has no attribute get")

/-- Python membership test, key in j: key containment for a dict, element
equality for a list (a JSON element equals the string key only when it is
that string), substring test for a string, TypeError otherwise. -/
def Json.pyContains (j : Json) (key : String) : Except PyExc Bool :=
  match j with
  | .obj fields => .ok (fields.any (fun p => p.1 == key))
  | .arr items =>
    .ok (items.any (fun it =>
      match it with
      | .str s => s == key
      | _ => false))
  | .str s => .ok (strContainsSub s key)
  | _ => .error (.typeError "argument is not iterable")

/-- Core of Python str.title over ASCII: a cased (alphabetic) character is
uppercased when the previous character was not cased and lowercased
otherwise; non-alphabetic characters pass through and end the current word.
The boolean argument records whether the previous character was cased. -/
def pyTitleAux : Bool → List Char → List Char
  | _, [] => []
  | prevCased, c :: cs =>
    if c.isAlpha then
      (if prevCased then c.toLower else c.toUpper) :: pyTitleAux true cs
    else
      c :: pyTitleAux false cs

/-- Python str.title over ASCII strings. -/
def pytitle (s : String) : String :=
  String.mk (pyTitleAux false s.data)

/-- Python method call j.title(): defined on strings, an AttributeError on
every other value. -/
def Json.title (j : Json) : Except PyExc String :=
  match j with
  | .str s => .ok (pytitle s)
  | _ => .error (.attributeError "object has no attribute title")

/-- Python datetime.fromtimestamp(j).strftime(..): requires a number, and
renders it through the timezone-dependent formatter fmt. A non-number
argument raises a TypeError, as in Python. -/
def pyFromtimestampFmt (fmt : ℚ → String) (j : Json) : Except PyExc String :=
  match j with
  | .num q => .ok (fmt q)
  | _ => .error (.typeError "an integer is required")

/-- Result of a completed requests.get call: the status code, and the
behaviour of response.json() on the raw body (a parsed tree, or the raised
decode error). -/
structure HttpResponse : Type where
  status_code : Nat
  body : Except PyExc Json

/-- Outcome of the single outbound HTTP exchange a fetch call performs:
requests.get either raises an exception or completes with a response. -/
inductive TransportOutcome : Type where
  | raises (e : PyExc)
  | completes (resp : HttpResponse)

/-- Python try/except: run the try body; when it raises, run the handler,
which either returns normally (a matching except clause) or re-raises. -/
def runTryExcept {α : Type} (body : Except PyExc α) (handler : PyExc → Except PyExc α) :
    Except PyExc α :=
  match body with
  | .ok a => .ok a
  | .error e => handler e

/-- The weather_info record built by fetch_weather_data on the 200 path,
field for field (source lines 43 to 54). -/
structure WeatherInfo : Type where
  city : Json
  country : Json
  temperature : Json
  feels_like : Json
  humidity : Json
  pressure : Json
  weather_description : String
  wind_speed : Json
  visibility : Json
  timestamp : String

/-- The dict-literal body of the 200 branch of fetch_weather_data: each
value expression evaluated in source order, any raised exception aborting
the construction (source lines 43 to 54). -/
def weatherProject (fmt : ℚ → String) (data : Json) : Except PyExc WeatherInfo := do
  let city ← data.getItem "name"
  let country ← (← data.getItem "sys").getItem "country"
  let temperature ← (← data.getItem "main").getItem "temp"
  let feels_like ← (← data.getItem "main").getItem "feels_like"
  let humidity ← (← data.getItem "main").getItem "humidity"
  let pressure ← (← data.getItem "main").getItem "pressure"
  let weather_description ← (← (← data.getItem "weather").index 0).getItem "description"
  let weather_description ← weather_description.title
  let wind_speed ← (← data.getItem "wind").getItem "speed"
  let visibility ← data.dictGet "visibility" (Json.str "N/A")
  let dt ← data.getItem "dt"
  let timestamp ← pyFromtimestampFmt fmt dt
  return { city := city, country := country, temperature := temperature,
           feels_like := feels_like, humidity := humidity, pressure := pressure,
           weather_description := weather_description, wind_speed := wind_speed,
           visibility := visibility, timestamp := timestamp }

/-- The try body of fetch_weather_data (source lines 30 to 59): the
transport call, the status test, and on 200 the JSON parse and projection;
on a non-200 status a printed message and the return of None. -/
def weatherTryBody (fmt : ℚ → String) (outcome : TransportOutcome) :
    Except PyExc (Option WeatherInfo × List String) := do
  let resp ← match outcome with
    | .raises e => Except.error e
    | .completes r => Except.ok r
  if resp.status_code = 200 then
    let data ← resp.body
    let info ← weatherProject fmt data
    return (some info, [])
  else
    return (none, ["Error: Unable to fetch weather data (Status code: " ++
                   toString resp.status_code ++ ")"])

/-- The except clauses of fetch_weather_data (source lines 61 to 69): a
Timeout clause, a ConnectionError clause and a catch-all Exception clause,
each printing one message and returning None. -/
def weatherExceptClauses (e : PyExc) : Except PyExc (Option WeatherInfo × List String) :=
  match e with
  | .requestsTimeout =>
    .ok (none, ["Error: Request timed out. Please check your internet connection."])
  | .requestsConnectionError =>
    .ok (none, ["Error: Failed to connect to weather API. Please check your internet connection."])
  | e => .ok (none, ["Error: " ++ pyStr e])

/-- fetch_weather_data (source lines 20 to 69), as a function of the
transport outcome: the returned value is the Python return value (None or
the weather_info record) paired with the printed lines; an Except error
would be an exception propagating out of the call. -/
def fetch_weather_data (fmt : ℚ → String) (outcome : TransportOutcome) :
    Except PyExc (Option WeatherInfo × List String) :=
  runTryExcept (weatherTryBody fmt outcome) weatherExceptClauses

/-- The per-symbol dict built by fetch_crypto_prices on the 200 path
(source lines 101 to 106). -/
structure CryptoQuote : Type where
  price : Json
  change_24h : Json
  market_cap : Json
  volume_24h : Json

/-- Python dict item assignment d[k] = v on an association list: an
existing key keeps its position and gets the new value, a new key is
appended. -/
def dictAssign (m : List (String × CryptoQuote)) (k : String) (v : CryptoQuote) :
    List (String × CryptoQuote) :=
  match m with
  | [] => [(k, v)]
  | p :: rest => if p.1 == k then (p.1, v) :: rest else p :: dictAssign rest k v

/-- One iteration of the crypto loop (source lines 99 to 106): the
membership test, and when the symbol is present the dict literal with its
required usd lookup and its three defaulted lookups, evaluated in source
order. -/
def quoteStep (data : Json) (symbol : String) : Except PyExc (Option CryptoQuote) := do
  let present ← data.pyContains symbol
  if present then
    let price ← (← data.getItem symbol).getItem "usd"
    let change_24h ← (← data.getItem symbol).dictGet "usd_24h_change" (Json.num 0)
    let market_cap ← (← data.getItem symbol).dictGet "usd_market_cap" (Json.str "N/A")
    let volume_24h ← (← data.getItem symbol).dictGet "usd_24h_vol" (Json.str "N/A")
    return some { price := price, change_24h := change_24h,
                  market_cap := market_cap, volume_24h := volume_24h }
  else
    return none

/-- The for loop of the 200 branch of fetch_crypto_prices, iterating the
caller-supplied symbols in order over the accumulated crypto_info dict. -/
def cryptoLoop (data : Json) : List String → List (String × CryptoQuote) →
    Except PyExc (List (String × CryptoQuote))
  | [], acc => .ok acc
  | s :: rest, acc => do
    match ← quoteStep data s with
    | some q => cryptoLoop data rest (dictAssign acc s q)
    | none => cryptoLoop data rest acc

/-- The try body of fetch_crypto_prices (source lines 81 to 111): the
transport call, the status test, and on 200 the JSON parse and the loop
over the requested symbols; on a non-200 status a printed message and the
return of None. -/
def cryptoTryBody (crypto_symbols : List String) (outcome : TransportOutcome) :
    Except PyExc (Option (List (String × CryptoQuote)) × List String) := do
  let resp ← match outcome with
    | .raises e => Except.error e
    | .completes r => Except.ok r
  if resp.status_code = 200 then
    let data ← resp.body
    let crypto_info ← cryptoLoop data crypto_symbols []
    return (some crypto_info, [])
  else
    return (none, ["Error: Unable to fetch crypto data (Status code: " ++
                   toString resp.status_code ++ ")"])

/-- The except clauses of fetch_crypto_prices (source lines 113 to 121). -/
def cryptoExceptClauses (e : PyExc) :
    Except PyExc (Option (List (String × CryptoQuote)) × List String) :=
  match e with
  | .requestsTimeout =>
    .ok (none, ["Error: Request timed out. Please check your internet connection."])
  | .requestsConnectionError =>
    .ok (none, ["Error: Failed to connect to crypto API. Please check your internet connection."])
  | e => .ok (none, ["Error: " ++ pyStr e])

/-- fetch_crypto_prices (source lines 71 to 121), as a function of the
requested symbol list and the transport outcome. -/
def fetch_crypto_prices (crypto_symbols : List String) (outcome : TransportOutcome) :
    Except PyExc (Option (List (String × CryptoQuote)) × List String) :=
  runTryExcept (cryptoTryBody crypto_symbols outcome) cryptoExceptClauses

/-- Specification-side: the record info is a complete, undefaulted
projection of the tree data: every required source path is present and
equal to the corresponding field, the description is the title-cased raw
description, the visibility is the dict.get result with its N/A default,
and the timestamp is the formatter applied to the numeric dt field. -/
def weatherComplete (fmt : ℚ → String) (data : Json) (info : WeatherInfo) : Prop :=
    data.getItem "name" = .ok info.city ∧
    (data.getItem "sys").bind (fun j => j.getItem "country") = .ok info.country ∧
    (data.getItem "main").bind (fun j => j.getItem "temp") = .ok info.temperature ∧
    (data.getItem "main").bind (fun j => j.getItem "feels_like") = .ok info.feels_like ∧
    (data.getItem "main").bind (fun j => j.getItem "humidity") = .ok info.humidity ∧
    (data.getItem "main").bind (fun j => j.getItem "pressure") = .ok info.pressure ∧
    (∃ raw : String,
      ((data.getItem "weather").bind (fun j => j.index 0)).bind (fun j => j.getItem "description") =
        .ok (Json.str raw) ∧ info.weather_description = pytitle raw) ∧
    (data.getItem "wind").bind (fun j => j.getItem "speed") = .ok info.wind_speed ∧
    data.dictGet "visibility" (Json.str "N/A") = .ok info.visibility ∧
    (∃ q : ℚ, data.getItem "dt" = .ok (Json.num q) ∧ info.timestamp = fmt q)

/-- Whether one iteration of the crypto loop yields a quote for this symbol. -/
def quoteSome (data : Json) (s : String) : Bool :=
  match quoteStep data s with
  | .ok (some _) => true
  | _ => false

/-- Specification-side: a nonempty word of lowercase ASCII letters. -/
def lowerWord (w : String) : Prop :=
  w.data ≠ [] ∧ ∀ c ∈ w.data, c.isAlpha = true ∧ c.toLower = c

instance (w : String) : Decidable (lowerWord w) := by
  unfold lowerWord; infer_instance

/-- Specification-side: the word with its first letter uppercased. -/
def capFirst (w : String) : String :=
  match w.data with
  | [] => ""
  | c :: cs => String.mk (c.toUpper :: cs)

/-- Specification-side: words joined by single spaces. -/
def joinSpace : List String → String
  | [] => ""
  | [w] => w
  | w :: rest => w ++ " " ++ joinSpace rest

def fmt0 : ℚ → String := fun _ => ""

def wbFull (cv cn tv fv hv pv : Json) (d : String) (wv vis : Json) (q : ℚ) : Json :=
  .obj [("name", cv), ("sys", .obj [("country", cn)]),
        ("main", .obj [("temp", tv), ("feels_like", fv), ("humidity", hv), ("pressure", pv)]),
        ("weather", .arr [.obj [("description", .str d)]]),
        ("wind", .obj [("speed", wv)]),
        ("visibility", vis), ("dt", .num q)]

def wbNoVis (cv cn tv fv hv pv : Json) (d : String) (wv : Json) (q : ℚ) : Json :=
  .obj [("name", cv), ("sys", .obj [("country", cn)]),
        ("main", .obj [("temp", tv), ("feels_like", fv), ("humidity", hv), ("pressure", pv)]),
        ("weather", .arr [.obj [("description", .str d)]]),
        ("wind", .obj [("speed", wv)]), ("dt", .num q)]

def wbNoHum (cv cn tv fv pv : Json) (d : String) (wv vis : Json) (q : ℚ) : Json :=
  .obj [("name", cv), ("sys", .obj [("country", cn)]),
        ("main", .obj [("temp", tv), ("feels_like", fv), ("pressure", pv)]),
        ("weather", .arr [.obj [("description", .str d)]]),
        ("wind", .obj [("speed", wv)]),
        ("visibility", vis), ("dt", .num q)]

theorem exceptBind_ok {α β : Type} {x : Except PyExc α} {f : α → Except PyExc β} {b : β} :
    x >>= f = .ok b ↔ ∃ a, x = .ok a ∧ f a = .ok b := by
  cases x <;> simp [bind, Except.bind]

theorem exceptPure_ok {α : Type} {a b : α} :
    (pure a : Except PyExc α) = .ok b ↔ a = b := by
  simp [pure, Except.pure]

theorem weatherProject_ok_inv (fmt : ℚ → String) (data : Json) (info : WeatherInfo)
    (h : weatherProject fmt data = .ok info) :
    weatherComplete fmt data info := by
  unfold weatherComplete
  show data.getItem "name" = .ok info.city ∧
    (data.getItem "sys").bind (fun j => j.getItem "country") = .ok info.country ∧
    (data.getItem "main").bind (fun j => j.getItem "temp") = .ok info.temperature ∧
    (data.getItem "main").bind (fun j => j.getItem "feels_like") = .ok info.feels_like ∧
    (data.getItem "main").bind (fun j => j.getItem "humidity") = .ok info.humidity ∧
    (data.getItem "main").bind (fun j => j.getItem "pressure") = .ok info.pressure ∧
    (∃ raw : String,
      ((data.getItem "weather").bind (fun j => j.index 0)).bind (fun j => j.getItem "description") =
        .ok (Json.str raw) ∧ info.weather_description = pytitle raw) ∧
    (data.getItem "wind").bind (fun j => j.getItem "speed") = .ok info.wind_speed ∧
    data.dictGet "visibility" (Json.str "N/A") = .ok info.visibility ∧
    (∃ q : ℚ, data.getItem "dt" = .ok (Json.num q) ∧ info.timestamp = fmt q)
  simp only [weatherProject, exceptBind_ok, exceptPure_ok] at h
  obtain ⟨city, hc, sys, hs, country, hco, main1, hm1, temp, ht, main2, hm2, fl, hfl,
    main3, hm3, hum, hh, main4, hm4, pr, hp, w, hw, w0, hw0, dsc, hd, dscT, hdT,
    wind, hwi, ws, hws, vis, hv, dt, hdt, ts, hts, hinfo⟩ := h
  subst hinfo
  cases dsc <;> simp [Json.title] at hdT
  cases dt <;> simp [pyFromtimestampFmt] at hts
  case str.num s q =>
    refine ⟨hc, ?_, ?_, ?_, ?_, ?_, ⟨s, ?_, ?_⟩, ?_, hv, ⟨q, hdt, ?_⟩⟩ <;>
      simp_all [Except.bind]

theorem weatherExceptClauses_shape (e : PyExc) :
    ∃ m : String, weatherExceptClauses e = .ok (none, [m]) := by
  cases e <;> exact ⟨_, rfl⟩

theorem cryptoExceptClauses_shape (e : PyExc) :
    ∃ m : String, cryptoExceptClauses e = .ok (none, [m]) := by
  cases e <;> exact ⟨_, rfl⟩

theorem fetch_weather_data_shape (fmt : ℚ → String) (o : TransportOutcome)
    (r : Option WeatherInfo) (out : List String)
    (h : fetch_weather_data fmt o = .ok (r, out)) :
    (∃ info, r = some info ∧ out = []) ∨ (r = none ∧ ∃ m, out = [m]) := by
  cases o with
  | raises e =>
    obtain ⟨m, hm⟩ := weatherExceptClauses_shape e
    have h2 : fetch_weather_data fmt (.raises e) = .ok (none, [m]) := hm
    rw [h] at h2
    simp only [Except.ok.injEq, Prod.mk.injEq] at h2
    exact Or.inr ⟨h2.1, m, h2.2⟩
  | completes resp =>
    obtain ⟨s, b⟩ := resp
    by_cases hs : s = 200
    · subst hs
      cases b with
      | error e =>
        obtain ⟨m, hm⟩ := weatherExceptClauses_shape e
        have h2 : fetch_weather_data fmt (.completes ⟨200, .error e⟩) = .ok (none, [m]) := by
          simp [fetch_weather_data, weatherTryBody, runTryExcept, bind, Except.bind, hm]
        rw [h] at h2
        simp only [Except.ok.injEq, Prod.mk.injEq] at h2
        exact Or.inr ⟨h2.1, m, h2.2⟩
      | ok data =>
        cases hp : weatherProject fmt data with
        | ok info =>
          have h2 : fetch_weather_data fmt (.completes ⟨200, .ok data⟩) = .ok (some info, []) := by
            simp [fetch_weather_data, weatherTryBody, runTryExcept, bind, Except.bind, hp, pure, Except.pure]
          rw [h] at h2
          simp only [Except.ok.injEq, Prod.mk.injEq] at h2
          exact Or.inl ⟨info, h2.1, h2.2⟩
        | error e =>
          obtain ⟨m, hm⟩ := weatherExceptClauses_shape e
          have h2 : fetch_weather_data fmt (.completes ⟨200, .ok data⟩) = .ok (none, [m]) := by
            simp [fetch_weather_data, weatherTryBody, runTryExcept, bind, Except.bind, hp, hm]
          rw [h] at h2
          simp only [Except.ok.injEq, Prod.mk.injEq] at h2
          exact Or.inr ⟨h2.1, m, h2.2⟩
    · have h2 : fetch_weather_data fmt (.completes ⟨s, b⟩) =
          .ok (none, ["Error: Unable to fetch weather data (Status code: " ++ toString s ++ ")"]) := by
        simp [fetch_weather_data, weatherTryBody, runTryExcept, bind, Except.bind, pure, Except.pure, hs]
      rw [h] at h2
      simp only [Except.ok.injEq, Prod.mk.injEq] at h2
      exact Or.inr ⟨h2.1, _, h2.2⟩

theorem fetch_weather_data_some_inv (fmt : ℚ → String) (o : TransportOutcome)
    (info : WeatherInfo) (out : List String)
    (h : fetch_weather_data fmt o = .ok (some info, out)) :
    ∃ data, o = .completes ⟨200, .ok data⟩ ∧ weatherProject fmt data = .ok info ∧ out = [] := by
  cases o with
  | raises e =>
    obtain ⟨m, hm⟩ := weatherExceptClauses_shape e
    have : fetch_weather_data fmt (.raises e) = .ok (none, [m]) := hm
    rw [h] at this; simp at this
  | completes resp =>
    obtain ⟨s, b⟩ := resp
    by_cases hs : s = 200
    · subst hs
      cases b with
      | error e =>
        obtain ⟨m, hm⟩ := weatherExceptClauses_shape e
        have h2 : fetch_weather_data fmt (.completes ⟨200, .error e⟩) = .ok (none, [m]) := by
          simp [fetch_weather_data, weatherTryBody, runTryExcept, bind, Except.bind, hm]
        rw [h] at h2; simp at h2
      | ok data =>
        cases hp : weatherProject fmt data with
        | ok i =>
          have h2 : fetch_weather_data fmt (.completes ⟨200, .ok data⟩) = .ok (some i, []) := by
            simp [fetch_weather_data, weatherTryBody, runTryExcept, bind, Except.bind, hp, pure, Except.pure]
          rw [h] at h2
          simp only [Except.ok.injEq, Prod.mk.injEq, Option.some.injEq] at h2
          exact ⟨data, rfl, by rw [hp, h2.1], h2.2⟩
        | error e =>
          obtain ⟨m, hm⟩ := weatherExceptClauses_shape e
          have h2 : fetch_weather_data fmt (.completes ⟨200, .ok data⟩) = .ok (none, [m]) := by
            simp [fetch_weather_data, weatherTryBody, runTryExcept, bind, Except.bind, hp, hm]
          rw [h] at h2; simp at h2
    · have h2 : fetch_weather_data fmt (.completes ⟨s, b⟩) =
          .ok (none, ["Error: Unable to fetch weather data (Status code: " ++ toString s ++ ")"]) := by
        simp [fetch_weather_data, weatherTryBody, runTryExcept, bind, Except.bind, pure, Except.pure, hs]
      rw [h] at h2; simp at h2

theorem dictAssign_notMem (m : List (String × CryptoQuote)) (k : String) (v : CryptoQuote)
    (h : ∀ p ∈ m, p.1 ≠ k) : dictAssign m k v = m ++ [(k, v)] := by
  induction m with
  | nil => rfl
  | cons p rest ih =>
    have hp : p.1 ≠ k := h p (by simp)
    simp only [dictAssign, List.cons_append]
    rw [if_neg (by simpa using hp)]
    rw [ih (fun q hq => h q (by simp [hq]))]

theorem cryptoLoop_keys (data : Json) :
    ∀ (symbols : List String) (acc m : List (String × CryptoQuote)),
    symbols.Nodup → (∀ s ∈ symbols, ∀ p ∈ acc, p.1 ≠ s) →
    cryptoLoop data symbols acc = .ok m →
    m.map Prod.fst = acc.map Prod.fst ++ symbols.filter (fun s => quoteSome data s) := by
  intro symbols
  induction symbols with
  | nil =>
    intro acc m _ _ hloop
    simp only [cryptoLoop, Except.ok.injEq] at hloop
    simp [← hloop]
  | cons s rest ih =>
    intro acc m hnd hdisj hloop
    cases hq : quoteStep data s with
    | error e =>
      simp [cryptoLoop, bind, Except.bind, hq] at hloop
    | ok oq =>
      cases oq with
      | none =>
        have hloop2 : cryptoLoop data rest acc = .ok m := by
          simpa [cryptoLoop, bind, Except.bind, hq] using hloop
        have hqs : quoteSome data s = false := by simp [quoteSome, hq]
        rw [List.filter_cons_of_neg (by simp [hqs])]
        exact ih acc m hnd.of_cons (fun t ht p hp => hdisj t (by simp [ht]) p hp) hloop2
      | some q =>
        have hloop2 : cryptoLoop data rest (dictAssign acc s q) = .ok m := by
          simpa [cryptoLoop, bind, Except.bind, hq] using hloop
        have hassign : dictAssign acc s q = acc ++ [(s, q)] :=
          dictAssign_notMem acc s q (fun p hp => hdisj s (by simp) p hp)
        have hqs : quoteSome data s = true := by simp [quoteSome, hq]
        have hdisj2 : ∀ t ∈ rest, ∀ p ∈ acc ++ [(s, q)], p.1 ≠ t := by
          intro t ht p hp
          rcases List.mem_append.mp hp with hpa | hps
          · exact hdisj t (by simp [ht]) p hpa
          · simp only [List.mem_singleton] at hps
            subst hps
            intro hst
            have hst2 : s = t := hst
            exact (List.nodup_cons.mp hnd).1 (hst2 ▸ ht)
        have := ih (acc ++ [(s, q)]) m (List.nodup_cons.mp hnd).2
          (fun t ht p hp => hdisj2 t ht p hp) (by rwa [hassign] at hloop2)
        rw [this, List.filter_cons_of_pos (by simp [hqs])]
        simp

theorem fetch_crypto_prices_shape (symbols : List String) (o : TransportOutcome)
    (r : Option (List (String × CryptoQuote))) (out : List String)
    (h : fetch_crypto_prices symbols o = .ok (r, out)) :
    (∃ m, r = some m ∧ out = []) ∨ (r = none ∧ ∃ msg, out = [msg]) := by
  cases o with
  | raises e =>
    obtain ⟨m, hm⟩ := cryptoExceptClauses_shape e
    have h2 : fetch_crypto_prices symbols (.raises e) = .ok (none, [m]) := hm
    rw [h] at h2
    simp only [Except.ok.injEq, Prod.mk.injEq] at h2
    exact Or.inr ⟨h2.1, m, h2.2⟩
  | completes resp =>
    obtain ⟨s, b⟩ := resp
    by_cases hs : s = 200
    · subst hs
      cases b with
      | error e =>
        obtain ⟨m, hm⟩ := cryptoExceptClauses_shape e
        have h2 : fetch_crypto_prices symbols (.completes ⟨200, .error e⟩) = .ok (none, [m]) := by
          simp [fetch_crypto_prices, cryptoTryBody, runTryExcept, bind, Except.bind, hm]
        rw [h] at h2
        simp only [Except.ok.injEq, Prod.mk.injEq] at h2
        exact Or.inr ⟨h2.1, m, h2.2⟩
      | ok data =>
        cases hp : cryptoLoop data symbols [] with
        | ok info =>
          have h2 : fetch_crypto_prices symbols (.completes ⟨200, .ok data⟩) = .ok (some info, []) := by
            simp [fetch_crypto_prices, cryptoTryBody, runTryExcept, bind, Except.bind, hp, pure, Except.pure]
          rw [h] at h2
          simp only [Except.ok.injEq, Prod.mk.injEq] at h2
          exact Or.inl ⟨info, h2.1, h2.2⟩
        | error e =>
          obtain ⟨m, hm⟩ := cryptoExceptClauses_shape e
          have h2 : fetch_crypto_prices symbols (.completes ⟨200, .ok data⟩) = .ok (none, [m]) := by
            simp [fetch_crypto_prices, cryptoTryBody, runTryExcept, bind, Except.bind, hp, hm]
          rw [h] at h2
          simp only [Except.ok.injEq, Prod.mk.injEq] at h2
          exact Or.inr ⟨h2.1, m, h2.2⟩
    · have h2 : fetch_crypto_prices symbols (.completes ⟨s, b⟩) =
          .ok (none, ["Error: Unable to fetch crypto data (Status code: " ++ toString s ++ ")"]) := by
        simp [fetch_crypto_prices, cryptoTryBody, runTryExcept, bind, Except.bind, pure, Except.pure, hs]
      rw [h] at h2
      simp only [Except.ok.injEq, Prod.mk.injEq] at h2
      exact Or.inr ⟨h2.1, _, h2.2⟩

theorem fetch_crypto_prices_some_inv (symbols : List String) (o : TransportOutcome)
    (m : List (String × CryptoQuote)) (out : List String)
    (h : fetch_crypto_prices symbols o = .ok (some m, out)) :
    ∃ data, o = .completes ⟨200, .ok data⟩ ∧ cryptoLoop data symbols [] = .ok m ∧ out = [] := by
  cases o with
  | raises e =>
    obtain ⟨msg, hm⟩ := cryptoExceptClauses_shape e
    have h2 : fetch_crypto_prices symbols (.raises e) = .ok (none, [msg]) := hm
    rw [h] at h2; simp at h2
  | completes resp =>
    obtain ⟨s, b⟩ := resp
    by_cases hs : s = 200
    · subst hs
      cases b with
      | error e =>
        obtain ⟨msg, hm⟩ := cryptoExceptClauses_shape e
        have h2 : fetch_crypto_prices symbols (.completes ⟨200, .error e⟩) = .ok (none, [msg]) := by
          simp [fetch_crypto_prices, cryptoTryBody, runTryExcept, bind, Except.bind, hm]
        rw [h] at h2; simp at h2
      | ok data =>
        cases hp : cryptoLoop data symbols [] with
        | ok m2 =>
          have h2 : fetch_crypto_prices symbols (.completes ⟨200, .ok data⟩) = .ok (some m2, []) := by
            simp [fetch_crypto_prices, cryptoTryBody, runTryExcept, bind, Except.bind, hp, pure, Except.pure]
          rw [h] at h2
          simp only [Except.ok.injEq, Prod.mk.injEq, Option.some.injEq] at h2
          exact ⟨data, rfl, by rw [hp, h2.1], h2.2⟩
        | error e =>
          obtain ⟨msg, hm⟩ := cryptoExceptClauses_shape e
          have h2 : fetch_crypto_prices symbols (.completes ⟨200, .ok data⟩) = .ok (none, [msg]) := by
            simp [fetch_crypto_prices, cryptoTryBody, runTryExcept, bind, Except.bind, hp, hm]
          rw [h] at h2; simp at h2
    · have h2 : fetch_crypto_prices symbols (.completes ⟨s, b⟩) =
          .ok (none, ["Error: Unable to fetch crypto data (Status code: " ++ toString s ++ ")"]) := by
        simp [fetch_crypto_prices, cryptoTryBody, runTryExcept, bind, Except.bind, pure, Except.pure, hs]
      rw [h] at h2; simp at h2

theorem pyTitleAux_lower : ∀ cs : List Char, (∀ c ∈ cs, c.isAlpha = true ∧ c.toLower = c) →
    ∀ tail : List Char, pyTitleAux true (cs ++ tail) = cs ++ pyTitleAux true tail := by
  intro cs
  induction cs with
  | nil => intro _ _; rfl
  | cons c rest ih =>
    intro h tail
    have hc := h c (by simp)
    have ih2 := ih (fun d hd => h d (by simp [hd])) tail
    simp [pyTitleAux, hc.1, hc.2, ih2]

theorem pyTitleAux_word (c : Char) (cs : List Char) (hc : c.isAlpha = true)
    (h : ∀ d ∈ cs, d.isAlpha = true ∧ d.toLower = d) (tail : List Char) :
    pyTitleAux false (c :: cs ++ tail) = c.toUpper :: (cs ++ pyTitleAux true tail) := by
  simp [pyTitleAux, hc, pyTitleAux_lower cs h tail]

theorem pytitle_joinSpace : ∀ ws : List String, (∀ w ∈ ws, lowerWord w) →
    pytitle (joinSpace ws) = joinSpace (ws.map capFirst) := by
  intro ws
  induction ws with
  | nil => intro _; rfl
  | cons w rest ih =>
    intro h
    obtain ⟨hw1, hw2⟩ := h w (by simp)
    cases rest with
    | nil =>
      obtain ⟨wd⟩ := w
      cases wd with
      | nil => exact absurd rfl hw1
      | cons c cs =>
        have hc := hw2 c (by simp)
        have heq := pyTitleAux_word c cs hc.1 (fun d hd => hw2 d (by simp [hd])) []
        simp only [joinSpace, List.map, capFirst, pytitle]
        apply String.ext
        simp only [List.append_nil] at heq
        simpa [pyTitleAux] using heq
    | cons w2 rest2 =>
      have ih2 := ih (fun v hv => h v (by simp [hv]))
      obtain ⟨wd⟩ := w
      cases wd with
      | nil => exact absurd rfl hw1
      | cons c cs =>
        have hc := hw2 c (by simp)
        have hjd : (joinSpace (String.mk (c :: cs) :: w2 :: rest2)).data =
            c :: cs ++ (' ' :: (joinSpace (w2 :: rest2)).data) := by
          simp [joinSpace, String.data_append]
        have hword := pyTitleAux_word c cs hc.1 (fun d hd => hw2 d (by simp [hd]))
          (' ' :: (joinSpace (w2 :: rest2)).data)
        have hspace : pyTitleAux true (' ' :: (joinSpace (w2 :: rest2)).data) =
            ' ' :: pyTitleAux false (joinSpace (w2 :: rest2)).data := by
          simp [pyTitleAux]
        apply String.ext
        show (pytitle (joinSpace (String.mk (c :: cs) :: w2 :: rest2))).data = _
        rw [pytitle]
        show pyTitleAux false (joinSpace (String.mk (c :: cs) :: w2 :: rest2)).data = _
        rw [hjd, hword, hspace]
        have hih : pyTitleAux false (joinSpace (w2 :: rest2)).data =
            (joinSpace ((w2 :: rest2).map capFirst)).data := by
          have := congrArg String.data ih2
          simpa [pytitle] using this
        rw [hih]
        show _ = (joinSpace (capFirst (String.mk (c :: cs)) :: (w2 :: rest2).map capFirst)).data
        have : capFirst (String.mk (c :: cs)) = String.mk (c.toUpper :: cs) := rfl
        rw [this]
        cases hmap : (w2 :: rest2).map capFirst with
        | nil => simp at hmap
        | cons a t =>
          simp [joinSpace, String.data_append, ← hmap]

theorem fetch_weather_full (fmt : ℚ → String) (cv cn tv fv hv pv : Json) (d : String)
    (wv vis : Json) (q : ℚ) :
    fetch_weather_data fmt (.completes ⟨200, .ok (wbFull cv cn tv fv hv pv d wv vis q)⟩) =
    .ok (some { city := cv, country := cn, temperature := tv, feels_like := fv,
                humidity := hv, pressure := pv, weather_description := pytitle d,
                wind_speed := wv, visibility := vis, timestamp := fmt q }, []) := rfl

theorem fetch_weather_noVis (fmt : ℚ → String) (cv cn tv fv hv pv : Json) (d : String)
    (wv : Json) (q : ℚ) :
    fetch_weather_data fmt (.completes ⟨200, .ok (wbNoVis cv cn tv fv hv pv d wv q)⟩) =
    .ok (some { city := cv, country := cn, temperature := tv, feels_like := fv,
                humidity := hv, pressure := pv, weather_description := pytitle d,
                wind_speed := wv, visibility := Json.str "N/A", timestamp := fmt q }, []) := rfl

theorem fetch_weather_noHum (fmt : ℚ → String) (cv cn tv fv pv : Json) (d : String)
    (wv vis : Json) (q : ℚ) :
    fetch_weather_data fmt (.completes ⟨200, .ok (wbNoHum cv cn tv fv pv d wv vis q)⟩) =
    .ok (none, ["Error: " ++ pyQuoteCh ++ "humidity" ++ pyQuoteCh]) := rfl

/-- C3 amended: for every 200 crypto response in which a requested id is
present as a key but its object lacks usd, the KeyError raised by the
required usd lookup aborts the whole loop: the call returns None after
printing Error: followed by the quoted key usd, and the quotes of the other
requested ids, although built, are not returned. The per-id skip applies
only to ids absent from the response, not to present ids missing usd. -/
theorem C3_usd_missing_fails_batch (p : ℚ) (eth : List (String × Json))
    (heth : eth.lookup "usd" = none) :
    fetch_crypto_prices ["bitcoin", "ethereum"]
      (.completes ⟨200, .ok (.obj [("bitcoin", .obj [("usd", .num p)]), ("ethereum", .obj eth)])⟩) =
    .ok (none, ["Error: " ++ pyQuoteCh ++ "usd" ++ pyQuoteCh]) := by
  have hq : quoteStep (.obj [("bitcoin", .obj [("usd", .num p)]), ("ethereum", .obj eth)]) "ethereum" =
      .error (.keyError "usd") := by
    simp [quoteStep, Json.pyContains, Json.getItem, List.lookup, heth, bind, Except.bind]
  simp [fetch_crypto_prices, cryptoTryBody, runTryExcept, bind, Except.bind, cryptoLoop,
        quoteStep, Json.pyContains, Json.getItem, Json.dictGet, dictAssign, List.lookup, heth,
        cryptoExceptClauses, pyStr, pure, Except.pure, String.append_assoc]

/-- C1 counterexample: on a transport timeout, a connection failure and a
generic transport exception, both fetch functions return the same
undifferentiated failure value None to the caller; no distinct classified
error values are returned. -/
theorem C1_counterexample :
    (fetch_weather_data fmt0 (.raises .requestsTimeout)).map Prod.fst = .ok none ∧
    (fetch_weather_data fmt0 (.raises .requestsConnectionError)).map Prod.fst = .ok none ∧
    (fetch_weather_data fmt0 (.raises (.otherError "boom"))).map Prod.fst = .ok none ∧
    (fetch_crypto_prices ["bitcoin"] (.raises .requestsTimeout)).map Prod.fst = .ok none ∧
    (fetch_crypto_prices ["bitcoin"] (.raises .requestsConnectionError)).map Prod.fst = .ok none ∧
    (fetch_crypto_prices ["bitcoin"] (.raises (.otherError "boom"))).map Prod.fst = .ok none :=
  ⟨rfl, rfl, rfl, rfl, rfl, rfl⟩

/-- C1 amended: on a timeout both functions print the timeout message and
return None; on a connection failure they print the connection-failure
message (naming the respective API) and return None; on any other
transport-level exception they print Error: followed by the exception text
and return None. The three outcomes are distinguished only by the printed
message, not by the value returned to the caller. -/
theorem C1_errors_return_none (fmt : ℚ → String) (symbols : List String) (e : PyExc)
    (h1 : e ≠ PyExc.requestsTimeout) (h2 : e ≠ PyExc.requestsConnectionError) :
    fetch_weather_data fmt (.raises .requestsTimeout) =
      .ok (none, ["Error: Request timed out. Please check your internet connection."]) ∧
    fetch_weather_data fmt (.raises .requestsConnectionError) =
      .ok (none, ["Error: Failed to connect to weather API. Please check your internet connection."]) ∧
    fetch_weather_data fmt (.raises e) = .ok (none, ["Error: " ++ pyStr e]) ∧
    fetch_crypto_prices symbols (.raises .requestsTimeout) =
      .ok (none, ["Error: Request timed out. Please check your internet connection."]) ∧
    fetch_crypto_prices symbols (.raises .requestsConnectionError) =
      .ok (none, ["Error: Failed to connect to crypto API. Please check your internet connection."]) ∧
    fetch_crypto_prices symbols (.raises e) = .ok (none, ["Error: " ++ pyStr e]) := by
  refine ⟨rfl, rfl, ?_, rfl, rfl, ?_⟩ <;>
    cases e <;> first | rfl | exact absurd rfl h1 | exact absurd rfl h2

/-- C1 witness: the amended theorem at a concrete generic exception. -/
theorem C1_errors_return_none_witness :
    fetch_weather_data fmt0 (.raises (.otherError "boom")) =
      .ok (none, ["Error: " ++ pyStr (.otherError "boom")]) ∧
    fetch_crypto_prices ["bitcoin"] (.raises (.otherError "boom")) =
      .ok (none, ["Error: " ++ pyStr (.otherError "boom")]) :=
  ⟨(C1_errors_return_none fmt0 ["bitcoin"] (.otherError "boom") (by decide) (by decide)).2.2.1,
   (C1_errors_return_none fmt0 ["bitcoin"] (.otherError "boom") (by decide) (by decide)).2.2.2.2.2⟩

/-- C2 counterexample: for the 200 weather response missing main.humidity,
the function returns None after printing the Python KeyError text, which is
not the claimed classified error Unknown with a missing-field path. -/
theorem C2_counterexample :
    fetch_weather_data fmt0 (.completes ⟨200, .ok (wbNoHum (.str "London") (.str "GB")
        (.num 10) (.num 9) (.num 1000) "light rain" (.num 3) (.num 10000) 1700000000)⟩) =
      .ok (none, ["Error: " ++ pyQuoteCh ++ "humidity" ++ pyQuoteCh]) ∧
    "Error: " ++ pyQuoteCh ++ "humidity" ++ pyQuoteCh ≠ "missing field main.humidity" :=
  ⟨rfl, by decide⟩

/-- C2 amended: for every 200 weather response shaped like a complete
response but with main.humidity absent, fetch_weather_data returns None
after printing Error: followed by the quoted missing key, and the caller
never receives a partially filled record: whenever the call does return a
record, every required source path was present and is copied into the
record unmodified (description title-cased, visibility defaulted only via
its explicit dict.get default, timestamp the formatted numeric dt). -/
theorem C2_missing_field_none_and_no_partial (fmt : ℚ → String) (cv cn tv fv pv : Json)
    (d : String) (wv vis : Json) (q : ℚ) (o : TransportOutcome) (info : WeatherInfo)
    (out : List String) (h : fetch_weather_data fmt o = .ok (some info, out)) :
    fetch_weather_data fmt (.completes ⟨200, .ok (wbNoHum cv cn tv fv pv d wv vis q)⟩) =
      .ok (none, ["Error: " ++ pyQuoteCh ++ "humidity" ++ pyQuoteCh]) ∧
    ∃ data, o = .completes ⟨200, .ok data⟩ ∧ weatherComplete fmt data info ∧ out = [] := by
  refine ⟨fetch_weather_noHum fmt cv cn tv fv pv d wv vis q, ?_⟩
  obtain ⟨data, ho, hp, hout⟩ := fetch_weather_data_some_inv fmt o info out h
  exact ⟨data, ho, weatherProject_ok_inv fmt data info hp, hout⟩

/-- C2 witness: the amended theorem at a concrete missing-humidity body and
a concrete successful call. -/
theorem C2_missing_field_witness :
    fetch_weather_data fmt0 (.completes ⟨200, .ok (wbNoHum (.str "L") (.str "GB")
        (.num 1) (.num 2) (.num 3) "d" (.num 4) (.num 5) 6)⟩) =
      .ok (none, ["Error: " ++ pyQuoteCh ++ "humidity" ++ pyQuoteCh]) ∧
    ∃ data, TransportOutcome.completes (HttpResponse.mk 200 (.ok (wbFull (.str "L") (.str "GB")
        (.num 1) (.num 2) (.num 3) (.num 4) "d" (.num 5) (.num 6) 7))) =
        .completes ⟨200, .ok data⟩ ∧
      weatherComplete fmt0 data
        { city := .str "L", country := .str "GB",
          temperature := .num 1, feels_like := .num 2, humidity := .num 3,
          pressure := .num 4, weather_description := pytitle "d", wind_speed := .num 5,
          visibility := .num 6, timestamp := fmt0 7 } ∧ ([] : List String) = [] :=
  C2_missing_field_none_and_no_partial fmt0 (.str "L") (.str "GB") (.num 1) (.num 2)
    (.num 3) "d" (.num 4) (.num 5) 6 _ _ []
    (fetch_weather_full fmt0 (.str "L") (.str "GB") (.num 1) (.num 2) (.num 3) (.num 4)
      "d" (.num 5) (.num 6) 7)

/-- C3 counterexample: a 200 crypto response in which the requested id
ethereum is present but lacks usd makes the whole call return None; the
bitcoin quote is not returned. -/
theorem C3_counterexample :
    fetch_crypto_prices ["bitcoin", "ethereum"]
      (.completes ⟨200, .ok (.obj [("bitcoin", .obj [("usd", .num 50000)]),
                                   ("ethereum", .obj [("usd_market_cap", .num 1)])])⟩) =
      .ok (none, ["Error: " ++ pyQuoteCh ++ "usd" ++ pyQuoteCh]) :=
  rfl

/-- C3 witness: the amended theorem at a concrete response. -/
theorem C3_usd_missing_witness :
    fetch_crypto_prices ["bitcoin", "ethereum"]
      (.completes ⟨200, .ok (.obj [("bitcoin", .obj [("usd", .num 50000)]),
                                   ("ethereum", .obj [])])⟩) =
      .ok (none, ["Error: " ++ pyQuoteCh ++ "usd" ++ pyQuoteCh]) :=
  C3_usd_missing_fails_batch 50000 [] rfl

/-- C4 counterexample: the optional-field sentinel in the records is the
string N/A, not the string unavailable: shown on a 200 weather response
without visibility and a 200 crypto response without usd_market_cap and
usd_24h_vol. -/
theorem C4_counterexample :
    fetch_weather_data fmt0 (.completes ⟨200, .ok (wbNoVis (.str "London") (.str "GB")
        (.num 10) (.num 9) (.num 80) (.num 1000) "light rain" (.num 3) 1700000000)⟩) =
      .ok (some { city := .str "London", country := .str "GB", temperature := .num 10,
                  feels_like := .num 9, humidity := .num 80, pressure := .num 1000,
                  weather_description := pytitle "light rain", wind_speed := .num 3,
                  visibility := Json.str "N/A", timestamp := fmt0 1700000000 }, []) ∧
    fetch_crypto_prices ["bitcoin"]
        (.completes ⟨200, .ok (.obj [("bitcoin", .obj [("usd", .num 50000)])])⟩) =
      .ok (some [("bitcoin", { price := Json.num 50000, change_24h := Json.num 0,
                               market_cap := Json.str "N/A", volume_24h := Json.str "N/A" })], []) ∧
    ("N/A" : String) ≠ "unavailable" :=
  ⟨rfl, rfl, by decide⟩

/-- C4 amended: whenever an optional upstream field is absent from a 200
response, the corresponding record field equals the sentinel string N/A:
the weather visibility when visibility is absent, and a quote market_cap
and volume_24h when usd_market_cap and usd_24h_vol are absent. -/
theorem C4_optional_defaults_are_sentinel (fmt : ℚ → String) (cv cn tv fv hv pv : Json)
    (d : String) (wv : Json) (q p : ℚ) :
    fetch_weather_data fmt (.completes ⟨200, .ok (wbNoVis cv cn tv fv hv pv d wv q)⟩) =
      .ok (some { city := cv, country := cn, temperature := tv, feels_like := fv,
                  humidity := hv, pressure := pv, weather_description := pytitle d,
                  wind_speed := wv, visibility := Json.str "N/A", timestamp := fmt q }, []) ∧
    fetch_crypto_prices ["bitcoin"]
        (.completes ⟨200, .ok (.obj [("bitcoin", .obj [("usd", .num p)])])⟩) =
      .ok (some [("bitcoin", { price := Json.num p, change_24h := Json.num 0,
                               market_cap := Json.str "N/A", volume_24h := Json.str "N/A" })], []) :=
  ⟨fetch_weather_noVis fmt cv cn tv fv hv pv d wv q, rfl⟩

/-- C4 witness: the amended theorem at concrete values. -/
theorem C4_optional_defaults_witness :
    fetch_weather_data fmt0 (.completes ⟨200, .ok (wbNoVis (.str "L") (.str "GB")
        (.num 1) (.num 2) (.num 3) (.num 4) "d" (.num 5) 6)⟩) =
      .ok (some { city := .str "L", country := .str "GB", temperature := .num 1,
                  feels_like := .num 2, humidity := .num 3, pressure := .num 4,
                  weather_description := pytitle "d", wind_speed := .num 5,
                  visibility := Json.str "N/A", timestamp := fmt0 6 }, []) ∧
    fetch_crypto_prices ["bitcoin"]
        (.completes ⟨200, .ok (.obj [("bitcoin", .obj [("usd", .num 7)])])⟩) =
      .ok (some [("bitcoin", { price := Json.num 7, change_24h := Json.num 0,
                               market_cap := Json.str "N/A", volume_24h := Json.str "N/A" })], []) :=
  C4_optional_defaults_are_sentinel fmt0 (.str "L") (.str "GB") (.num 1) (.num 2)
    (.num 3) (.num 4) "d" (.num 5) 6 7

/-- C5: for every successful 200 crypto call over distinct requested ids,
the result mapping has an entry exactly for the requested ids for which the
loop yields a quote (ids absent from the response yield none and are
omitted, not an error); whenever a present entry has usd but no
usd_24h_change, its quote has change_24h zero; and the spec example,
requesting bitcoin and ethereum against a response holding only bitcoin at
usd 50000, returns exactly the bitcoin entry with change zero and the N/A
sentinels for market cap and volume. -/
theorem C5_requested_ids_projection (symbols : List String) (data : Json)
    (m : List (String × CryptoQuote)) (out : List String) (t : String)
    (fields : List (String × Json)) (pv : Json)
    (hnd : symbols.Nodup)
    (h : fetch_crypto_prices symbols (.completes ⟨200, .ok data⟩) = .ok (some m, out))
    (hc : data.pyContains t = .ok true) (hg : data.getItem t = .ok (.obj fields))
    (hu : fields.lookup "usd" = some pv) (hch : fields.lookup "usd_24h_change" = none) :
    fetch_crypto_prices ["bitcoin", "ethereum"]
        (.completes ⟨200, .ok (.obj [("bitcoin", .obj [("usd", .num 50000)])])⟩) =
      .ok (some [("bitcoin", { price := Json.num 50000, change_24h := Json.num 0,
                               market_cap := Json.str "N/A", volume_24h := Json.str "N/A" })], []) ∧
    (∀ s, s ∈ m.map Prod.fst ↔ (s ∈ symbols ∧ quoteSome data s = true)) ∧
    (∃ mc vl, quoteStep data t = .ok (some { price := pv, change_24h := Json.num 0,
                                             market_cap := mc, volume_24h := vl })) := by
  refine ⟨rfl, ?_, ?_⟩
  · obtain ⟨data2, ho, hloop, _⟩ := fetch_crypto_prices_some_inv symbols _ m out h
    have hd : data = data2 := by
      simp only [TransportOutcome.completes.injEq, HttpResponse.mk.injEq, Except.ok.injEq,
        true_and] at ho
      exact ho
    subst hd
    have hkeys := cryptoLoop_keys data symbols [] m hnd (by simp) hloop
    intro s
    rw [hkeys]
    simp [List.mem_filter]
  · have hpu : (Json.obj fields).getItem "usd" = .ok pv := by
      simp [Json.getItem, hu]
    have hchd : (Json.obj fields).dictGet "usd_24h_change" (Json.num 0) = .ok (Json.num 0) := by
      simp [Json.dictGet, hch]
    obtain ⟨mcv, hmcv⟩ : ∃ v, (Json.obj fields).dictGet "usd_market_cap" (Json.str "N/A") = .ok v := by
      cases hl : fields.lookup "usd_market_cap" with
      | none => exact ⟨Json.str "N/A", by simp [Json.dictGet, hl]⟩
      | some x => exact ⟨x, by simp [Json.dictGet, hl]⟩
    obtain ⟨vlv, hvlv⟩ : ∃ v, (Json.obj fields).dictGet "usd_24h_vol" (Json.str "N/A") = .ok v := by
      cases hl : fields.lookup "usd_24h_vol" with
      | none => exact ⟨Json.str "N/A", by simp [Json.dictGet, hl]⟩
      | some x => exact ⟨x, by simp [Json.dictGet, hl]⟩
    refine ⟨mcv, vlv, ?_⟩
    simp [quoteStep, bind, Except.bind, hc, hg, hpu, hchd, hmcv, hvlv, pure, Except.pure]

/-- C5 witness: the theorem at the spec example itself. -/
theorem C5_requested_ids_witness :
    fetch_crypto_prices ["bitcoin", "ethereum"]
        (.completes ⟨200, .ok (.obj [("bitcoin", .obj [("usd", .num 50000)])])⟩) =
      .ok (some [("bitcoin", { price := Json.num 50000, change_24h := Json.num 0,
                               market_cap := Json.str "N/A", volume_24h := Json.str "N/A" })], []) ∧
    (∀ s, s ∈ ([("bitcoin", CryptoQuote.mk (Json.num 50000) (Json.num 0) (Json.str "N/A")
          (Json.str "N/A"))].map Prod.fst) ↔
      (s ∈ ["bitcoin", "ethereum"] ∧
        quoteSome (.obj [("bitcoin", .obj [("usd", .num 50000)])]) s = true)) ∧
    (∃ mc vl, quoteStep (.obj [("bitcoin", .obj [("usd", .num 50000)])]) "bitcoin" =
      .ok (some { price := Json.num 50000, change_24h := Json.num 0,
                  market_cap := mc, volume_24h := vl })) :=
  C5_requested_ids_projection ["bitcoin", "ethereum"]
    (.obj [("bitcoin", .obj [("usd", .num 50000)])])
    [("bitcoin", CryptoQuote.mk (Json.num 50000) (Json.num 0) (Json.str "N/A") (Json.str "N/A"))]
    [] "bitcoin" [("usd", .num 50000)] (.num 50000)
    (by decide) rfl rfl rfl rfl rfl

/-- C6 counterexample: for completed exchanges with status 404 and with
status 500, both functions return the same value None to the caller; no
UpstreamStatus value carrying the code is returned. -/
theorem C6_counterexample :
    (fetch_weather_data fmt0 (.completes ⟨404, .ok .null⟩)).map Prod.fst = .ok none ∧
    (fetch_weather_data fmt0 (.completes ⟨500, .ok .null⟩)).map Prod.fst = .ok none ∧
    (fetch_crypto_prices ["bitcoin"] (.completes ⟨404, .ok .null⟩)).map Prod.fst = .ok none ∧
    (fetch_crypto_prices ["bitcoin"] (.completes ⟨500, .ok .null⟩)).map Prod.fst = .ok none :=
  ⟨rfl, rfl, rfl, rfl⟩

/-- C6 amended: on every completed exchange with status different from 200,
both functions return None after printing one message carrying the status
code, and the body is never parsed: the result is the same for every body,
including a body whose JSON parse would raise. -/
theorem C6_non200_none_unparsed (fmt : ℚ → String) (symbols : List String)
    (s : Nat) (hs : s ≠ 200) (b b2 : Except PyExc Json) :
    fetch_weather_data fmt (.completes ⟨s, b⟩) =
      .ok (none, ["Error: Unable to fetch weather data (Status code: " ++ toString s ++ ")"]) ∧
    fetch_crypto_prices symbols (.completes ⟨s, b2⟩) =
      .ok (none, ["Error: Unable to fetch crypto data (Status code: " ++ toString s ++ ")"]) := by
  constructor
  · simp [fetch_weather_data, weatherTryBody, runTryExcept, bind, Except.bind, pure,
          Except.pure, hs]
  · simp [fetch_crypto_prices, cryptoTryBody, runTryExcept, bind, Except.bind, pure,
          Except.pure, hs]

/-- C6 witness: the amended theorem at status 404 with a body whose parse
raises, showing the body is irrelevant. -/
theorem C6_non200_witness :
    fetch_weather_data fmt0 (.completes ⟨404, .error (.valueError "Expecting value")⟩) =
      .ok (none, ["Error: Unable to fetch weather data (Status code: " ++ toString 404 ++ ")"]) ∧
    fetch_crypto_prices ["bitcoin"] (.completes ⟨404, .error (.valueError "Expecting value")⟩) =
      .ok (none, ["Error: Unable to fetch crypto data (Status code: " ++ toString 404 ++ ")"]) :=
  C6_non200_none_unparsed fmt0 ["bitcoin"] 404 (by decide)
    (.error (.valueError "Expecting value")) (.error (.valueError "Expecting value"))

/-- C7: on every 200 weather response containing all required fields, the
returned description is the raw weather[0].description passed through the
embedded Python str.title; on a raw description made of lowercase words
joined by single spaces, str.title capitalizes exactly the first letter of
each word; and the spec example holds: light rain becomes Light Rain. -/
theorem C7_description_title_cased (fmt : ℚ → String) (cv cn tv fv hv pv : Json)
    (d : String) (wv vis : Json) (q : ℚ) (ws : List String)
    (hws : ∀ w ∈ ws, lowerWord w) :
    fetch_weather_data fmt (.completes ⟨200, .ok (wbFull cv cn tv fv hv pv d wv vis q)⟩) =
      .ok (some { city := cv, country := cn, temperature := tv, feels_like := fv,
                  humidity := hv, pressure := pv, weather_description := pytitle d,
                  wind_speed := wv, visibility := vis, timestamp := fmt q }, []) ∧
    pytitle (joinSpace ws) = joinSpace (ws.map capFirst) ∧
    pytitle "light rain" = "Light Rain" :=
  ⟨fetch_weather_full fmt cv cn tv fv hv pv d wv vis q, pytitle_joinSpace ws hws, rfl⟩

/-- C7 witness: the theorem at concrete values and the two-word example. -/
theorem C7_description_witness :
    fetch_weather_data fmt0 (.completes ⟨200, .ok (wbFull (.str "L") (.str "GB")
        (.num 1) (.num 2) (.num 3) (.num 4) "light rain" (.num 5) (.num 6) 7)⟩) =
      .ok (some { city := .str "L", country := .str "GB", temperature := .num 1,
                  feels_like := .num 2, humidity := .num 3, pressure := .num 4,
                  weather_description := pytitle "light rain", wind_speed := .num 5,
                  visibility := .num 6, timestamp := fmt0 7 }, []) ∧
    pytitle (joinSpace ["light", "rain"]) = joinSpace (["light", "rain"].map capFirst) ∧
    pytitle "light rain" = "Light Rain" :=
  C7_description_title_cased fmt0 (.str "L") (.str "GB") (.num 1) (.num 2) (.num 3)
    (.num 4) "light rain" (.num 5) (.num 6) 7 ["light", "rain"] (by decide)

/-- C8 counterexample: on a transport timeout both functions print an error
line (the printed output is nonempty) and return None; the error text is
printed by this layer, not returned to the caller. -/
theorem C8_counterexample :
    fetch_weather_data fmt0 (.raises .requestsTimeout) =
      .ok (none, ["Error: Request timed out. Please check your internet connection."]) ∧
    fetch_crypto_prices ["bitcoin"] (.raises .requestsTimeout) =
      .ok (none, ["Error: Request timed out. Please check your internet connection."]) ∧
    (["Error: Request timed out. Please check your internet connection."] : List String) ≠ [] :=
  ⟨rfl, rfl, by decide⟩

/-- C8 amended: on every call that returns, either the call succeeds with a
record and prints nothing, or it fails with None and prints exactly one
error line: every error path prints, and only None (never an error value)
is returned to the caller. -/
theorem C8_error_paths_print (fmt : ℚ → String) (symbols : List String)
    (o o2 : TransportOutcome) (r : Option WeatherInfo)
    (r2 : Option (List (String × CryptoQuote))) (out out2 : List String)
    (h : fetch_weather_data fmt o = .ok (r, out))
    (h2 : fetch_crypto_prices symbols o2 = .ok (r2, out2)) :
    ((∃ i, r = some i ∧ out = []) ∨ (r = none ∧ ∃ m, out = [m])) ∧
    ((∃ m, r2 = some m ∧ out2 = []) ∨ (r2 = none ∧ ∃ m, out2 = [m])) :=
  ⟨fetch_weather_data_shape fmt o r out h, fetch_crypto_prices_shape symbols o2 r2 out2 h2⟩

/-- C8 witness: the amended theorem on the timeout path. -/
theorem C8_error_paths_witness :
    ((∃ i, (none : Option WeatherInfo) = some i ∧
        (["Error: Request timed out. Please check your internet connection."] : List String) = []) ∨
      ((none : Option WeatherInfo) = none ∧ ∃ m,
        (["Error: Request timed out. Please check your internet connection."] : List String) = [m])) ∧
    ((∃ m, (none : Option (List (String × CryptoQuote))) = some m ∧
        (["Error: Request timed out. Please check your internet connection."] : List String) = []) ∨
      ((none : Option (List (String × CryptoQuote))) = none ∧ ∃ m,
        (["Error: Request timed out. Please check your internet connection."] : List String) = [m])) :=
  C8_error_paths_print fmt0 ["bitcoin"] (.raises .requestsTimeout) (.raises .requestsTimeout)
    none none _ _ rfl rfl

/-- C9: for every transport outcome, any status code, any body and any
raised exception, both fetch functions return normally, a record or
mapping or the failure value None: every exception the try body can raise
is caught by an except clause, so no exception propagates to the caller. -/
theorem C9_no_exception_escapes (fmt : ℚ → String) (symbols : List String)
    (o o2 : TransportOutcome) :
    (∃ v, fetch_weather_data fmt o = .ok v) ∧
    (∃ v, fetch_crypto_prices symbols o2 = .ok v) := by
  constructor
  · unfold fetch_weather_data runTryExcept
    cases hb : weatherTryBody fmt o with
    | ok a => exact ⟨a, rfl⟩
    | error e => cases e <;> exact ⟨_, rfl⟩
  · unfold fetch_crypto_prices runTryExcept
    cases hb : cryptoTryBody symbols o2 with
    | ok a => exact ⟨a, rfl⟩
    | error e => cases e <;> exact ⟨_, rfl⟩

/-- C9 witness: the theorem at a concrete outcome. -/
theorem C9_no_exception_witness :
    (∃ v, fetch_weather_data fmt0 (.raises (.otherError "boom")) = .ok v) ∧
    (∃ v, fetch_crypto_prices ["bitcoin"] (.raises (.otherError "boom")) = .ok v) :=
  C9_no_exception_escapes fmt0 ["bitcoin"] (.raises (.otherError "boom"))
    (.raises (.otherError "boom"))

/-- C10: on every successful 200 crypto call over distinct requested ids,
the keys of the returned mapping are exactly the requested ids for which
the loop yields a quote, in the order of the request list: the key order is
the request order restricted to yielded ids, independent of the response
key order. -/
theorem C10_result_order_follows_request (symbols : List String) (data : Json)
    (m : List (String × CryptoQuote)) (out : List String)
    (hnd : symbols.Nodup)
    (h : fetch_crypto_prices symbols (.completes ⟨200, .ok data⟩) = .ok (some m, out)) :
    m.map Prod.fst = symbols.filter (fun s => quoteSome data s) := by
  obtain ⟨data2, ho, hloop, _⟩ := fetch_crypto_prices_some_inv symbols _ m out h
  have hd : data = data2 := by
    simp only [TransportOutcome.completes.injEq, HttpResponse.mk.injEq, Except.ok.injEq,
      true_and] at ho
    exact ho
  subst hd
  have hkeys := cryptoLoop_keys data symbols [] m hnd (by simp) hloop
  simpa using hkeys

/-- C10 witness: the theorem at a two-id request against a response holding
the ids in the opposite order. -/
theorem C10_result_order_witness :
    ([("ethereum", CryptoQuote.mk (Json.num 3000) (Json.num 0) (Json.str "N/A") (Json.str "N/A")),
      ("bitcoin", CryptoQuote.mk (Json.num 50000) (Json.num 0) (Json.str "N/A") (Json.str "N/A"))].map
        Prod.fst) =
    ["ethereum", "bitcoin"].filter (fun s =>
      quoteSome (.obj [("bitcoin", .obj [("usd", .num 50000)]),
                       ("ethereum", .obj [("usd", .num 3000)])]) s) :=
  C10_result_order_follows_request ["ethereum", "bitcoin"]
    (.obj [("bitcoin", .obj [("usd", .num 50000)]), ("ethereum", .obj [("usd", .num 3000)])])
    [("ethereum", CryptoQuote.mk (Json.num 3000) (Json.num 0) (Json.str "N/A") (Json.str "N/A")),
     ("bitcoin", CryptoQuote.mk (Json.num 50000) (Json.num 0) (Json.str "N/A") (Json.str "N/A"))]
    [] (by decide) rfl

